import Mathlib

/-!
Shallow embedding of the KEGG identifier cross-reference and relation-resolution
engine of `pypath/inputs/kegg_api.py`.

Modelling conventions:

* The transport collaborator (`pypath.share.curl`, which is not part of the
  sources here) is an oracle passed to every function that fetches.  Per the
  external-interface description it either returns the raw response lines or
  signals a failure; the source additionally coerces a missing or `None`
  `result` attribute to zero rows via `getattr(c, 'result', []) or []`
  (line 254), which we model by letting a successful response carry an
  `Option (List String)` whose `none` becomes the empty line list.
* A request is modelled as the list `operation :: arguments` that the source
  joins with `/` onto the URL template (line 246); the URL formatting itself
  is injective in these components and carries no further logic.
* Python runtime failures (TypeError, NameError, IndexError, ValueError,
  AttributeError) are modelled with `Except PyErr`.  The source declares
  `_kegg_general` as `async def` and no caller in the module awaits it, so a
  caller receives an un-run coroutine and never reaches the transport (and
  the body, were it ever run, would raise NameError on the unbound name
  `_async` at line 249 before fetching).  The embedding therefore works at
  two levels: `kegg_general_call` / `pyIterRows` give the call semantics of
  the source as written (an un-run coroutine whose iteration raises
  TypeError, zero requests), used for the claims about fetch issuance and
  cache population; `kegg_general` gives the repaired synchronous reading of
  the body, used only to trace claims whose defect lies in the caller (wrong
  arity at the `process` call site, unbound `entry_type` / `entry_id` names,
  the operator-precedence defect in `_kegg_list`, the unconditional `+`-join
  in `_kegg_ddi`) — for those the repaired reading can only delay a failure,
  never turn a failing path of the program into a success.
* Functions that record which remote requests they issue return a pair whose
  second component is the list of issued requests, so fetch counts are part
  of the embedding.
-/

namespace KeggApi

/-- Python runtime errors that the embedded code can raise. -/
inductive PyErr where
  | typeError (msg : String)
  | nameError (msg : String)
  | attributeError (msg : String)
  | indexError
  | valueError (msg : String)
  | transportFailure (msg : String)
  deriving DecidableEq, Repr

/-- The transport collaborator: maps a request (operation and positional
arguments, joined by `/` onto the URL template in the source) to either a
failure or a possibly-missing list of raw response lines. -/
abbrev Fetch : Type := List String → Except PyErr (Option (List String))

/-- Modelled from the spec: `pypath.share.common.to_list` is not among the
sources; scalars become singleton lists and `None` becomes the empty list,
as required by the uses in this module (an optional scope or option argument
contributes either nothing or itself to the request). -/
def to_list_opt : Option String → List String
  | none => []
  | some s => [s]

/-- Modelled from the spec: `to_list` applied to a plain string (as in
`_kegg_ddi_sync`, where the previously `+`-joined identifier string is passed)
wraps it into a one-element list. -/
def to_list_str (s : String) : List String := [s]

/-- Python `l[i]`: the element at `i` or an IndexError. -/
def pyIndex {α : Type} (l : List α) (i : Nat) : Except PyErr α :=
  match l[i]? with
  | some x => .ok x
  | none => .error .indexError

/-- Split a character list at every occurrence of a separator (the empty
input yields one empty field, as Python `str.split` with an explicit
separator does). -/
def splitChar (sep : Char) : List Char → List (List Char)
  | [] => [[]]
  | c :: cs =>
    match splitChar sep cs with
    | [] => [[]]
    | w :: ws => if c = sep then [] :: w :: ws else (c :: w) :: ws

/-- Python `s.split(sep)` for a one-character separator. -/
def pySplit (s : String) (sep : Char) : List String :=
  (splitChar sep s.data).map String.mk

/-- The `for`-loop shape of this module: process the items in order, the
first failing item aborts with its error. -/
def exceptMapM {α β : Type} (f : α → Except PyErr β) : List α → Except PyErr (List β)
  | [] => .ok []
  | a :: as =>
    match f a with
    | .error e => .error e
    | .ok b =>
      match exceptMapM f as with
      | .error e => .error e
      | .ok bs => .ok (b :: bs)

/-- The value a caller receives from a synchronous call `_kegg_general(*args)`
in the source as written: `_kegg_general` is declared `async def` (line 240)
and no caller in the module awaits it, so with at least one argument the call
merely creates and returns the un-run coroutine object — no request is issued
and the transport is never consulted (were the coroutine ever run, its body
would raise NameError on the unbound name `_async` at line 249 before
fetching).  With no argument at all, binding the required parameter
`operation` fails synchronously, before any coroutine exists. -/
inductive GeneralCallValue where
  | coroutine (args : List String)
  deriving DecidableEq, Repr

/-- A synchronous call of `_kegg_general` with the splatted argument list,
as every caller in the module performs it.  Returns the call outcome
together with the list of issued requests (always empty: the request URL is
only built inside the coroutine body, which never runs). -/
def kegg_general_call (args : List String) :
    Except PyErr GeneralCallValue × List (List String) :=
  match args with
  | [] => (.error (.typeError "kegg_general() missing required positional argument: operation"), [])
  | op :: rest => (.ok (.coroutine (op :: rest)), [])

/-- Iterating the call value with a Python `for` loop or comprehension, as
`_kegg_conv` (line 297) and the dict comprehension of `_KeggDatabase.load`
(line 448) do: a coroutine object is not iterable. -/
def pyIterRows : GeneralCallValue → Except PyErr (List (List String))
  | .coroutine _ => .error (.typeError "coroutine object is not iterable")

/-- `_kegg_general` (lines 240-256), the repaired synchronous reading of the
body: build the request from the operation and the positional arguments,
invoke the transport, coerce a missing result to zero rows, drop falsy
(empty) lines and split the rest on tabs.  Calling it with no positional
argument at all, as `_kegg_list` does for most databases, is a TypeError at
the call (the required parameter `operation` is missing) and no request is
issued.  Returns the outcome together with the list of issued requests.
This reading is used only for claims whose deciding defect sits in the
caller (see the header): since the program's own call semantics
(`kegg_general_call`) fail strictly earlier, tracing through this reading
never turns a failing path of the program into a success. -/
def kegg_general (fetch : Fetch) (args : List String) :
    Except PyErr (List (List String)) × List (List String) :=
  match args with
  | [] => (.error (.typeError "kegg_general() missing required positional argument: operation"), [])
  | op :: rest =>
      ((fetch (op :: rest)).map (fun res =>
        ((res.getD []).filter (fun line => line ≠ "")).map (fun line => pySplit line (Char.ofNat 9))),
       [op :: rest])

/-- The argument list computed by `_kegg_list` (lines 278-282).  The source
reads

```
['list', database] +
common.to_list(option) if database == 'brite' else [] +
common.to_list(organism) if database == 'pathway' else []
```

and the conditional expression binds looser than `+`, so this parses as
`(['list', database] + to_list(option)) if database == 'brite'
else (([] + to_list(organism)) if database == 'pathway' else [])`:
only the `brite` branch keeps the operation name and the database. -/
def kegg_list_args (database : String) (option : Option String)
    (organism : Option String) : List String :=
  if database = "brite" then ["list", database] ++ to_list_opt option
  else if database = "pathway" then [] ++ to_list_opt organism
  else []

/-- `_kegg_list` (lines 272-284). -/
def kegg_list (fetch : Fetch) (database : String) (option organism : Option String) :
    Except PyErr (List (List String)) × List (List String) :=
  kegg_general fetch (kegg_list_args database option organism)

/-- Positional application `_kegg_list(*posArgs)` as performed by
`_KeggDatabase.load` (line 445): bind the splatted arguments to the
parameters `(database, option=None, organism=None)`. -/
def kegg_list_call (fetch : Fetch) (posArgs : List String) :
    Except PyErr (List (List String)) × List (List String) :=
  match posArgs with
  | [db] => kegg_list fetch db none none
  | [db, opt] => kegg_list fetch db (some opt) none
  | [db, opt, org] => kegg_list fetch db (some opt) (some org)
  | _ => (.error (.typeError "kegg_list() takes 1 to 3 positional arguments"), [])

/-- Python dict assignment `d[k] = v`: replace the value of an existing key,
else append the new entry. -/
def dictInsert : List (String × String) → String → String → List (String × String)
  | [], k, v => [(k, v)]
  | p :: rest, k, v => if p.1 = k then (k, v) :: rest else p :: dictInsert rest k v

/-- The dict comprehension of `_KeggDatabase.load` (lines 447-450): transform
every entry by the key and value rules, later duplicate keys overwrite
earlier ones. -/
def buildData (procKey procValue : List String → Except PyErr String)
    (entries : List (List String)) : Except PyErr (List (String × String)) :=
  match exceptMapM (fun entry =>
      match procKey entry with
      | .error e => .error e
      | .ok k =>
        match procValue entry with
        | .error e => .error e
        | .ok v => .ok (k, v)) entries with
  | .error e => .error e
  | .ok kvs => .ok (kvs.foldl (fun d kv => dictInsert d kv.1 kv.2) [])

/-- `_KeggDatabase.load` (lines 442-450): one `_kegg_list` call with the
query arguments of the kind followed by the construction arguments, then the
key/value transformation of every returned row.  The instance data is
assigned only after a successful fetch, so a failure leaves no data. -/
def keggDatabaseLoad (fetch : Fetch) (query_args : Option String) (args : List String)
    (procKey procValue : List String → Except PyErr String) :
    Except PyErr (List (String × String)) × List (List String) :=
  let r := kegg_list_call fetch (to_list_opt query_args ++ args)
  (r.1.bind (fun entries => buildData procKey procValue entries), r.2)

/-- `_KeggDatabase.get` (lines 453-455): `self._data.get(index, default)` —
a plain dictionary lookup with a default, total, never an error. -/
def keggDatabaseGet : List (String × String) → String → Option String → Option String
  | [], _, default => default
  | p :: rest, index, default =>
      if p.1 = index then some p.2 else keggDatabaseGet rest index default

/-- `_SplitDatabase.proc_key` (lines 525-527): `entry[0].split(':')[1]`. -/
def splitProcKey (entry : List String) : Except PyErr String :=
  match pyIndex entry 0 with
  | .error e => .error e
  | .ok e0 => pyIndex (pySplit e0 (Char.ofNat 58)) 1

/-- `_SplitDatabase.proc_value` (lines 530-532): `entry[1]`. -/
def splitProcValue (entry : List String) : Except PyErr String :=
  pyIndex entry 1

/-- `re.search(r'\d+', s)`: the first maximal run of decimal digits, if any. -/
def firstDigitRun (s : String) : Option String :=
  match s.data.dropWhile (fun c => ¬ c.isDigit) with
  | [] => none
  | cs => some (String.mk (cs.takeWhile Char.isDigit))

/-- `_Pathway.proc_key` (lines 513-519): search the first digit run of
`entry[0]` and format it as `map` followed by the digits; when the raw
identifier holds no digits the source calls `.group()` on `None`. -/
def pathwayProcKey (entry : List String) : Except PyErr String :=
  match pyIndex entry 0 with
  | .error e => .error e
  | .ok e0 =>
    match firstDigitRun e0 with
    | some digits => .ok ("map" ++ digits)
    | none => .error (.attributeError "NoneType object has no attribute group")

/-- A conversion table: an insertion-ordered mapping from an identifier to the
accumulated identifiers of the other namespace (Python `dict` of `set`). -/
abbrev ConvTable : Type := List (String × List String)

/-- Python `dict` lookup used by `_ConversionTable.get` (lines 563-567):
`self._table[index]`, with the KeyError turned into `None`. -/
def convGet : ConvTable → String → Option (List String)
  | [], _ => none
  | q :: rest, index => if q.1 = index then some q.2 else convGet rest index

/-- The value a `defaultdict(set)` presents for a key: the accumulated
identifiers, or nothing yet. -/
def lookupD (table : ConvTable) (index : String) : List String :=
  (convGet table index).getD []

/-- Python `set.add`: append the value unless already present (sets are
modelled as duplicate-free lists in insertion order). -/
def insertVal (l : List String) (t : String) : List String :=
  if t ∈ l then l else l ++ [t]

/-- One iteration of the accumulation loop of `_kegg_conv` (line 301):
`conversion_table[source].add(target)` on a `defaultdict(set)`. -/
def addPair : ConvTable → String × String → ConvTable
  | [], p => [(p.1, [p.2])]
  | q :: rest, p =>
      if q.1 = p.1 then (q.1, insertVal q.2 p.2) :: rest
      else q :: addPair rest p

/-- Accumulate all stripped `(source, target)` pairs into the table. -/
def accTable (pairs : List (String × String)) : ConvTable :=
  pairs.foldl addPair []

/-- Python `s.split(':')[i]`: an IndexError when the split has too few
components. -/
def pySplitIndex (s : String) (i : Nat) : Except PyErr String :=
  pyIndex (pySplit s (Char.ofNat 58)) i

/-- The per-row work of `_kegg_conv` (lines 297-300): unpack the row into
`(source, target)` (a row of any other width is a ValueError) and optionally
strip each side down to its second colon-separated component. -/
def stripPair (source_split target_split : Bool) (row : List String) :
    Except PyErr (String × String) :=
  match row with
  | [source, target] =>
    match (if source_split then pySplitIndex source 1 else .ok source : Except PyErr String) with
    | .error e => .error e
    | .ok s =>
      match (if target_split then pySplitIndex target 1 else .ok target : Except PyErr String) with
      | .error e => .error e
      | .ok t => .ok (s, t)
  | _ => .error (.valueError "cannot unpack row into (source, target)")

/-- The table built by `_kegg_conv` from the returned rows. -/
def convTableOfRows (rows : List (List String)) (source_split target_split : Bool) :
    Except PyErr ConvTable :=
  (exceptMapM (stripPair source_split target_split) rows).map accTable

/-- `_kegg_conv` (lines 287-303) as actually executed: the call at line 294
returns the un-run coroutine of `_kegg_general('conv', target_db, source_db)`
and the unpacking loop at line 297 then raises TypeError.  The transport
argument only records what the collaborator would have answered: it is never
consulted, and no request is issued.  (The accumulation the loop body would
perform on real rows is `convTableOfRows`.) -/
def kegg_conv_run (_fetch : Fetch) (source_db target_db : String)
    (source_split target_split : Bool) :
    Except PyErr ConvTable × List (List String) :=
  let r := kegg_general_call ["conv", target_db, source_db]
  (r.1.bind (fun c =>
    (pyIterRows c).bind (fun rows => convTableOfRows rows source_split target_split)), r.2)

/-- Python `dict.update`: entries of the second table replace or extend those
of the first, used on the class-level shared `_table` (line 585). -/
def tableUpdate (t0 t1 : ConvTable) : ConvTable :=
  t1.foldl (fun acc p =>
    match convGet acc p.1 with
    | some _ => acc.map (fun q => if q.1 = p.1 then p else q)
    | none => acc ++ [p]) t0

/-- `_KeggToNcbi.download_table` (lines 583-585) as actually executed: build
via `_kegg_conv(organism, 'ncbi-geneid', target_split=True)`, then update the
shared class-level `_table` in place; `t0` is the table contents before this
build.  The update runs only if `_kegg_conv` returns. -/
def downloadTableKeggToNcbiRun (fetch : Fetch) (organism : String) (t0 : ConvTable) :
    Except PyErr ConvTable × List (List String) :=
  let r := kegg_conv_run fetch organism "ncbi-geneid" false true
  (r.1.map (fun t => tableUpdate t0 t), r.2)

/-- The table contents after a build: unchanged when the build failed. -/
def tableAfter (r : Except PyErr ConvTable) (t0 : ConvTable) : ConvTable :=
  match r with
  | .ok t => t
  | .error _ => t0

/-- Running the KEGG-to-NCBI conversion-cache build twice with the same
inputs (two instantiations of `_KeggToNcbi` with the same organism, the
second seeing whatever the first left in the shared class table): the
concatenated list of issued remote requests. -/
def buildKTNTwiceRequestsRun (fetch : Fetch) (organism : String) (t0 : ConvTable) :
    List (List String) :=
  let r1 := downloadTableKeggToNcbiRun fetch organism t0
  let r2 := downloadTableKeggToNcbiRun fetch organism (tableAfter r1.1 t0)
  r1.2 ++ r2.2

/-- `_KeggDatabase.load` (lines 442-450) as actually executed: `_kegg_list`
computes its argument list (see `kegg_list_args`) and calls `_kegg_general`
synchronously.  For the non-`brite` entity kinds the argument list is empty,
so binding the required `operation` parameter fails before any coroutine
exists; for argument lists that do bind, the dict comprehension at lines
447-450 then fails iterating the un-run coroutine.  Either way no request is
issued and `self._data` is never assigned. -/
def keggDatabaseLoadRun (query_args : Option String) (args : List String)
    (procKey procValue : List String → Except PyErr String) :
    Except PyErr (List (String × String)) × List (List String) :=
  let callArgs :=
    match to_list_opt query_args ++ args with
    | [db] => some (kegg_list_args db none none)
    | [db, opt] => some (kegg_list_args db (some opt) none)
    | [db, opt, org] => some (kegg_list_args db (some opt) (some org))
    | _ => none
  match callArgs with
  | none => (.error (.typeError "kegg_list() takes 1 to 3 positional arguments"), [])
  | some argList =>
    let r := kegg_general_call argList
    (r.1.bind (fun c => (pyIterRows c).bind (buildData procKey procValue)), r.2)

/-- The enriched entity record (`KeggEntry` namedtuple, lines 361-371). -/
structure KeggEntry where
  id : String
  name : Option String
  type_ : String
  ncbi_gene_ids : List String
  uniprot_ids : List String
  chebi_ids : List String
  deriving DecidableEq, Repr

/-- The call `process(e[0])` at line 413: `process` is declared with the two
required parameters `(entry, type_)` (line 393) but invoked with the entry
alone, so every evaluation raises a TypeError before the body runs (the body
itself would then fail as well: `get_data` resolves the database class from
`locals()`, which does not contain the module-level classes, and
`_KeggDatabase` defines no `handle` method). -/
def process_call (_entry : String) : Except PyErr KeggEntry :=
  .error (.typeError "process() missing 1 required positional argument: type_")

/-- One iteration of the comprehension at line 413:
`(process(e[0]), process(e[1]))`. -/
def relations_row (e : List String) : Except PyErr (KeggEntry × KeggEntry) :=
  match pyIndex e 0 with
  | .error err => .error err
  | .ok e0 =>
    match process_call e0 with
    | .error err => .error err
    | .ok src =>
      match pyIndex e 1 with
      | .error err => .error err
      | .ok e1 =>
        match process_call e1 with
        | .error err => .error err
        | .ok tgt => .ok (src, tgt)

/-- Line 411: `organism if db == 'gene' else db` — for genes the organism
code replaces the kind name in the link arguments; with no organism given the
gene side becomes `None` and the URL join fails. -/
def relationsSideArg (db : String) (organism : Option String) : Option String :=
  if db = "gene" then organism else some db

/-- `_kegg_relations` (lines 351-415): fetch the link relation with the
argument order reversed by `_kegg_link` (line 308:
`_kegg_general('link', target_db, source_db)`), then run the row
comprehension.  Returns the outcome together with the issued requests. -/
def kegg_relations (fetch : Fetch) (source_db target_db : String)
    (organism : Option String) :
    Except PyErr (List (KeggEntry × KeggEntry)) × List (List String) :=
  match relationsSideArg source_db organism, relationsSideArg target_db organism with
  | some a, some b =>
    let r := kegg_general fetch ["link", b, a]
    (r.1.bind (fun entries => exceptMapM relations_row entries), r.2)
  | _, _ =>
    (.error (.typeError "sequence item 1: expected str instance, NoneType found"), [])

/-- `_kegg_ddi_sync` (lines 324-329): one `fetch('ddi', d)` per element of
`to_list(drug_ids)`, results chained in order. -/
def kegg_ddi_sync (fetch : Fetch) : List String →
    Except PyErr (List (List String)) × List (List String)
  | [] => (.ok [], [])
  | d :: rest =>
    let r := kegg_general fetch ["ddi", d]
    match r.1 with
    | .error e => (.error e, r.2)
    | .ok rows =>
      let rr := kegg_ddi_sync fetch rest
      match rr.1 with
      | .error e => (.error e, r.2 ++ rr.2)
      | .ok more => (.ok (rows ++ more), r.2 ++ rr.2)

/-- `_kegg_ddi` (lines 311-321), synchronous branch: line 313 joins all the
given identifiers with `+` into a single string unconditionally, and
`_kegg_ddi_sync` then iterates over `to_list` of that single string, so
exactly one `ddi` request carrying the joined identifiers is issued no matter
how the caller intended to batch.  (The signature accepts only
`(drug_ids, async_)`; the asynchronous branch hands the same joined string to
the unfinished coroutine stub.) -/
def kegg_ddi (fetch : Fetch) (drug_ids : List String) :
    Except PyErr (List (List String)) × List (List String) :=
  kegg_ddi_sync fetch (to_list_str (String.intercalate "+" drug_ids))

/-- `entry_types` (line 151): the one-letter namespace tag. -/
def entryTypeOf (c : Char) : Option String :=
  if c.toLower = 'd' then some "drug"
  else if c.toLower = 'c' then some "compound"
  else none

/-- One side of an interaction row as `drug_to_drug` describes it. -/
structure DdiPartner where
  type_ : Option String
  id : String
  name : Option String
  deriving DecidableEq, Repr

/-- The `partners` computation of `drug_to_drug` (lines 166-176) for one raw
row.  The first generated entry evaluates, in order, `entry[i][0].lower()`
(IndexError on an empty row or an empty first field), `entry[i].split(':')[-1]`,
and then `entry_dbs[entry_type].get(entry_id, None)` — but `entry_type` and
`entry_id` are names bound nowhere in the function, so the lookup raises
NameError on every row before any label is read or any profile is built
(lines 178-205 are unreachable). -/
def ddi_partners (entry : List String) : Except PyErr (DdiPartner × DdiPartner) :=
  match pyIndex entry 0 with
  | .error e => .error e
  | .ok e0 =>
    match pyIndex e0.data 0 with
    | .error e => .error e
    | .ok c0 =>
      let _ty := entryTypeOf c0
      let _id := (pySplit e0 (Char.ofNat 58)).getLastD ""
      .error (.nameError "name entry_type is not defined")

/-- The aggregation loop of `drug_to_drug` (lines 164-205) over the fetched
interaction rows. -/
def ddi_aggregate (entries : List (List String)) :
    Except PyErr (List (DdiPartner × DdiPartner)) :=
  exceptMapM ddi_partners entries

/-- Python truthiness of the `drugs` argument (`None` or an empty sequence is
falsy). -/
def pyTruthyList : Option (List String) → Bool
  | none => false
  | some l => !l.isEmpty

/-- Lines 159-160 of `drug_to_drug`:
`join = join and drugs; asynchronous = not drugs or asynchronous`,
as truth values. -/
def drugToDrugFlags (drugs : Option (List String)) (join asynchronous : Bool) :
    Bool × Bool :=
  (join && pyTruthyList drugs, !pyTruthyList drugs || asynchronous)

/-! ## Helper lemmas about the conversion-table accumulation -/

theorem mem_insertVal (l : List String) (t x : String) :
    x ∈ insertVal l t ↔ x ∈ l ∨ x = t := by
  by_cases h : t ∈ l
  · simp only [insertVal, if_pos h]
    constructor
    · exact Or.inl
    · rintro (hx | rfl)
      · exact hx
      · exact h
  · simp [insertVal, h, List.mem_append]

theorem convGet_addPair (T : ConvTable) (s t id : String) :
    convGet (addPair T (s, t)) id =
      if id = s then some (insertVal (lookupD T s) t) else convGet T id := by
  induction T with
  | nil =>
      by_cases h : id = s
      · subst h
        simp [addPair, convGet, lookupD, insertVal]
      · have h2 : ¬ s = id := fun hh => h hh.symm
        simp [addPair, convGet, h, h2]
  | cons q rest ih =>
      rcases q with ⟨k, v⟩
      by_cases hks : k = s
      · subst hks
        by_cases hid : id = k
        · subst hid
          simp [addPair, convGet, lookupD]
        · have h2 : ¬ k = id := fun hh => hid hh.symm
          simp [addPair, convGet, hid, h2]
      · by_cases hid : id = s
        · subst hid
          simp [addPair, convGet, lookupD, hks, ih]
        · by_cases hkid : k = id
          · simp [addPair, convGet, hks, hkid, hid, ih]
          · simp [addPair, convGet, hks, hkid, hid, ih]

theorem lookupD_addPair (T : ConvTable) (s t id : String) :
    lookupD (addPair T (s, t)) id =
      if id = s then insertVal (lookupD T s) t else lookupD T id := by
  by_cases h : id = s <;> simp [lookupD, convGet_addPair, h]

theorem convGet_addPair_eq_none (T : ConvTable) (s t id : String) :
    convGet (addPair T (s, t)) id = none ↔ convGet T id = none ∧ id ≠ s := by
  rw [convGet_addPair]
  by_cases h : id = s <;> simp [h]

theorem mem_lookupD_foldl (ps : List (String × String)) (T : ConvTable) (id x : String) :
    x ∈ lookupD (ps.foldl addPair T) id ↔ x ∈ lookupD T id ∨ (id, x) ∈ ps := by
  induction ps generalizing T with
  | nil => simp
  | cons p ps ih =>
      rcases p with ⟨s, t⟩
      rw [List.foldl_cons, ih, lookupD_addPair]
      by_cases h : id = s
      · subst h
        rw [if_pos rfl, mem_insertVal]
        simp only [List.mem_cons, Prod.mk.injEq, eq_self_iff_true, true_and]
        tauto
      · rw [if_neg h]
        simp only [List.mem_cons, Prod.mk.injEq, h, false_and, false_or]

theorem convGet_foldl_eq_none (ps : List (String × String)) (T : ConvTable) (id : String) :
    convGet (ps.foldl addPair T) id = none ↔
      convGet T id = none ∧ ∀ x, (id, x) ∉ ps := by
  induction ps generalizing T with
  | nil => simp
  | cons p ps ih =>
      rcases p with ⟨s, t⟩
      rw [List.foldl_cons, ih, convGet_addPair_eq_none]
      constructor
      · rintro ⟨⟨h1, h2⟩, h3⟩
        refine ⟨h1, fun x hx => ?_⟩
        rcases List.mem_cons.mp hx with h | h
        · exact h2 (congrArg Prod.fst h)
        · exact h3 x h
      · rintro ⟨h1, h2⟩
        refine ⟨⟨h1, fun hs => ?_⟩, fun x hx => h2 x (List.mem_cons.mpr (Or.inr hx))⟩
        exact h2 t (List.mem_cons.mpr (Or.inl (by simp [hs])))

theorem except_map_ok {α β : Type} (f : α → β) (x : Except PyErr α) (b : β)
    (h : x.map f = .ok b) : ∃ a, x = .ok a ∧ f a = b := by
  cases x with
  | error e => simp [Except.map] at h
  | ok a => exact ⟨a, rfl, by simpa [Except.map] using h⟩

theorem exceptMapM_ok_mem {α β : Type} (f : α → Except PyErr β) (as : List α)
    (bs : List β) (h : exceptMapM f as = .ok bs) (p : β) :
    p ∈ bs ↔ ∃ a ∈ as, f a = .ok p := by
  induction as generalizing bs with
  | nil =>
      simp only [exceptMapM, Except.ok.injEq] at h
      subst h
      simp
  | cons a as ih =>
      simp only [exceptMapM] at h
      cases hfa : f a with
      | error e => rw [hfa] at h; exact absurd h (by simp)
      | ok b0 =>
        rw [hfa] at h
        cases hms : exceptMapM f as with
        | error e => rw [hms] at h; exact absurd h (by simp)
        | ok bs0 =>
          rw [hms] at h
          simp only [Except.ok.injEq] at h
          subst h
          simp only [List.mem_cons]
          constructor
          · rintro (rfl | hb)
            · exact ⟨a, Or.inl rfl, hfa⟩
            · obtain ⟨a', ha', hfa'⟩ := (ih bs0 hms).mp hb
              exact ⟨a', Or.inr ha', hfa'⟩
          · rintro ⟨a', ha', hfa'⟩
            rcases ha' with rfl | ha'
            · rw [hfa] at hfa'
              simp only [Except.ok.injEq] at hfa'
              exact Or.inl hfa'.symm
            · exact Or.inr ((ih bs0 hms).mpr ⟨a', ha', hfa'⟩)

/-! ## Claims -/

/-- Claim C1 (code bug): the claim states that during relation resolution
both sides of every raw link row produce an entity record, with a null name
when the bare identifier is absent from its Entity Cache, never dropping a
row and never raising.  In the source, however, the comprehension at
line 413 calls `process(e[0])` although `process` is declared with the two
required parameters `(entry, type_)`, so resolving any non-empty link result
raises a TypeError before any record is emitted; only the cited
`_KeggDatabase.get(index, default)` lookup itself is total and yields the
default for an absent key. -/
theorem c1_resolution_raises_type_error :
    (kegg_relations
        (fun req =>
          if req = ["link", "disease", "pathway"] then
            .ok (some ["path:map04110\tds:H00001"])
          else .ok none)
        "pathway" "disease" none).1 =
      .error (.typeError "process() missing 1 required positional argument: type_") ∧
    keggDatabaseGet [] "H00001" none = none ∧
    keggDatabaseGet [("D00001", "Aspirin")] "H00001" none = none :=
  ⟨rfl, rfl, rfl⟩

/-- Claim C2 (code bug): the claim states that a transport failure during a
cache build propagates to the original caller, distinct from an empty
successful response.  In the source as written no cache build ever reaches
the transport: `_kegg_general` is an `async def` that no caller awaits, so
the build raises TypeError iterating the un-run coroutine, issues zero
requests, and produces the identical outcome — never a populated cache —
whether the transport would have failed or answered with an empty success.
The theorem exhibits this: the build result and its (empty) request trace do
not depend on the transport at all, and no transport behavior makes the
build succeed. -/
theorem c2_cache_build_never_reaches_transport (fetch fetch2 : Fetch)
    (organism : String) (t0 : ConvTable) :
    (downloadTableKeggToNcbiRun fetch organism t0).1 =
      .error (.typeError "coroutine object is not iterable") ∧
    (downloadTableKeggToNcbiRun fetch organism t0).2 = [] ∧
    downloadTableKeggToNcbiRun fetch organism t0 =
      downloadTableKeggToNcbiRun fetch2 organism t0 ∧
    (∀ t, (downloadTableKeggToNcbiRun fetch organism t0).1 ≠ .ok t) := by
  refine ⟨rfl, rfl, rfl, ?_⟩
  intro t h
  have h2 : (downloadTableKeggToNcbiRun fetch organism t0).1 =
      .error (.typeError "coroutine object is not iterable") := rfl
  rw [h2] at h
  exact absurd h (by simp)

/-- Claim C3, counterexample: building the KEGG-to-NCBI Conversion Cache
twice with the same inputs does not issue exactly one remote fetch — it
issues none at all: each run raises TypeError before the transport is
consulted (the un-run coroutine of `_kegg_general` is not iterable), so the
request trace of the double build is empty and no table is ever populated,
even with a transport that would have answered every request. -/
theorem c3_counterexample_two_builds_zero_fetches :
    buildKTNTwiceRequestsRun
        (fun _ => .ok (some ["hsa:1\tncbi-geneid:100"])) "hsa" [] = [] ∧
    (buildKTNTwiceRequestsRun
        (fun _ => .ok (some ["hsa:1\tncbi-geneid:100"])) "hsa" []).length = 0 ∧
    (0 : Nat) ≠ 1 ∧
    (downloadTableKeggToNcbiRun
        (fun _ => .ok (some ["hsa:1\tncbi-geneid:100"])) "hsa" []).1 =
      .error (.typeError "coroutine object is not iterable") :=
  ⟨rfl, rfl, by decide, rfl⟩

/-- Claim C3 (amended): no run of the cache build logic issues any remote
fetch, and no cache is ever populated or mutated: each conversion-cache run
fails iterating the un-run coroutine and each non-`brite` entity-cache run
fails even earlier, binding `_kegg_general`'s arguments — while no
memoization exists either, every construction executing its build
unconditionally (the double-build trace is the concatenation of two
identical per-run traces, both empty). -/
theorem c3_builds_fetch_nothing_and_populate_nothing (fetch : Fetch)
    (organism : String) (t0 : ConvTable) :
    buildKTNTwiceRequestsRun fetch organism t0 = [] ∧
    (downloadTableKeggToNcbiRun fetch organism t0).1 =
      .error (.typeError "coroutine object is not iterable") ∧
    (keggDatabaseLoadRun (some "drug") [] splitProcKey splitProcValue).1 =
      .error (.typeError "kegg_general() missing required positional argument: operation") ∧
    (keggDatabaseLoadRun (some "drug") [] splitProcKey splitProcValue).2 = [] :=
  ⟨rfl, rfl, rfl, rfl⟩

/-- Claim C4 (code bug): `_kegg_ddi` joins all given identifiers with `+`
unconditionally (line 313) and then iterates over the single joined string,
so it always issues exactly one batched `ddi` request; a per-identifier
un-joined mode does not exist at all (and the `drug_to_drug` call site
passes the keywords `join` and `asynchronous`, which the
`(drug_ids, async_)` signature rejects with a TypeError, after the
`_Drug()` / `_Compound()` constructions at line 152 have themselves already
failed). -/
theorem c4_ddi_request_always_joined :
    (kegg_ddi (fun _ => .ok (some [])) ["D00001", "D00002"]).2 =
      [["ddi", "D00001+D00002"]] ∧
    (kegg_ddi (fun _ => .ok (some [])) ["D00001", "D00002"]).2 ≠
      [["ddi", "D00001"], ["ddi", "D00002"]] := by
  refine ⟨rfl, ?_⟩
  have h1 : (kegg_ddi (fun _ => .ok (some [])) ["D00001", "D00002"]).2 =
      [["ddi", "D00001+D00002"]] := rfl
  rw [h1]
  decide

/-- Claim C5 (code bug): on the claimed input rows the aggregation loop of
`drug_to_drug` does not produce a profile for `D001`; evaluating the
`partners` expression for the very first row raises NameError, because the
name lookup reads `entry_type` and `entry_id`, names bound nowhere in the
function. -/
theorem c5_aggregator_raises_name_error :
    ddi_aggregate [["dr:D001", "dr:D002", "CI,P"], ["dr:D001", "cpd:C003", ""]] =
      .error (.nameError "name entry_type is not defined") :=
  rfl

/-- Claim C6 (code bug): constructing an Entity Cache does not issue
`fetch('list', entity_kind[, scope])`.  The argument expression of
`_kegg_list` is parsed with the conditional expression binding looser than
`+`, so for every database other than `brite` the operation name and the
database are dropped: the drug cache build calls `_kegg_general` with no
arguments at all, a TypeError, and zero remote requests are issued. -/
theorem c6_list_fetch_arguments_dropped :
    kegg_list_args "drug" none none = [] ∧
    kegg_list_args "pathway" (some "hsa") none = [] ∧
    (keggDatabaseLoad (fun _ => .ok (some ["dr:D00001\tAspirin"])) (some "drug") []
        splitProcKey splitProcValue).1 =
      .error (.typeError "kegg_general() missing required positional argument: operation") ∧
    (keggDatabaseLoad (fun _ => .ok (some ["dr:D00001\tAspirin"])) (some "drug") []
        splitProcKey splitProcValue).2 = [] ∧
    ([] : List String) ≠ ["list", "drug"] :=
  ⟨rfl, rfl, rfl, rfl, by decide⟩

/-- Claim C7, counterexample: `_ConversionTable.get` on an identifier absent
from the table returns `None` (here `none`), not the empty set, so the
claimed contract `get(id) -> set<string>` with "empty set if absent" fails
on any absent identifier. -/
theorem c7_counterexample_absent_identifier_gives_none :
    convTableOfRows [["hsa:1", "ncbi-geneid:100"]] false true =
      .ok [("hsa:1", ["100"])] ∧
    convGet [("hsa:1", ["100"])] "hsa:999" = none ∧
    (none : Option (List String)) ≠ some [] :=
  ⟨rfl, rfl, by decide⟩

/-- Claim C7 (amended): for a conversion table built from raw rows, a value
belongs to the set stored under `id` exactly when some raw row, after the
optional prefix stripping, reads `(id, value)` — the relation is accumulated
many-to-many and never collapsed — while `get` on an identifier contributed
by no row returns `None` (not the empty set). -/
theorem c7_conversion_many_to_many (rows : List (List String)) (ss ts : Bool)
    (T : ConvTable) (h : convTableOfRows rows ss ts = .ok T) :
    (∀ id x, x ∈ lookupD T id ↔ ∃ row ∈ rows, stripPair ss ts row = .ok (id, x)) ∧
    (∀ id, convGet T id = none ↔
      ∀ x, ¬ ∃ row ∈ rows, stripPair ss ts row = .ok (id, x)) := by
  obtain ⟨ps, hps, hT⟩ :=
    except_map_ok accTable (exceptMapM (stripPair ss ts) rows) T h
  subst hT
  have hmem : ∀ p : String × String, p ∈ ps ↔ ∃ row ∈ rows, stripPair ss ts row = .ok p :=
    fun p => exceptMapM_ok_mem _ rows ps hps p
  constructor
  · intro id x
    rw [show accTable ps = ps.foldl addPair [] from rfl, mem_lookupD_foldl]
    rw [show lookupD [] id = [] from rfl]
    simp only [List.not_mem_nil, false_or]
    exact hmem (id, x)
  · intro id
    rw [show accTable ps = ps.foldl addPair [] from rfl, convGet_foldl_eq_none]
    simp only [convGet, true_and]
    constructor
    · intro hall x hex
      exact hall x ((hmem (id, x)).mpr hex)
    · intro hall x hx
      exact hall x ((hmem (id, x)).mp hx)

/-- Witness for the amended claim C7 at a concrete table with a repeated
source identifier: the KEGG-to-NCBI style stripping applies, the two targets
of `hsa:1` accumulate, and the contract holds as amended. -/
theorem c7_conversion_witness :
    (∀ id x,
      x ∈ lookupD [("hsa:1", ["100", "200"]), ("hsa:2", ["100"])] id ↔
        ∃ row ∈ [["hsa:1", "ncbi-geneid:100"], ["hsa:1", "ncbi-geneid:200"],
            ["hsa:2", "ncbi-geneid:100"]],
          stripPair false true row = .ok (id, x)) ∧
    (∀ id, convGet [("hsa:1", ["100", "200"]), ("hsa:2", ["100"])] id = none ↔
      ∀ x, ¬ ∃ row ∈ [["hsa:1", "ncbi-geneid:100"], ["hsa:1", "ncbi-geneid:200"],
          ["hsa:2", "ncbi-geneid:100"]],
        stripPair false true row = .ok (id, x)) :=
  c7_conversion_many_to_many
    [["hsa:1", "ncbi-geneid:100"], ["hsa:1", "ncbi-geneid:200"],
      ["hsa:2", "ncbi-geneid:100"]]
    false true [("hsa:1", ["100", "200"]), ("hsa:2", ["100"])] rfl

/-- Claim C8 (code bug): the two directions of the resolution fetch the link
relation with reversed argument orders exactly as claimed —
`('gene','pathway','hsa')` requests `link/pathway/hsa` while
`('pathway','gene','hsa')` requests `link/hsa/pathway` — but neither
direction yields any pair sequence for a non-empty link result: the
comprehension calls `process` without its required `type_` argument and
raises a TypeError, so the claimed reversed pair sequences never exist. -/
theorem c8_link_arguments_reversed_but_resolution_fails :
    (kegg_relations
        (fun req =>
          if req = ["link", "pathway", "hsa"] then .ok (some ["hsa:1017\tpath:hsa04110"])
          else if req = ["link", "hsa", "pathway"] then .ok (some ["path:hsa04110\thsa:1017"])
          else .error (.transportFailure "unexpected request"))
        "gene" "pathway" (some "hsa")).2 = [["link", "pathway", "hsa"]] ∧
    (kegg_relations
        (fun req =>
          if req = ["link", "pathway", "hsa"] then .ok (some ["hsa:1017\tpath:hsa04110"])
          else if req = ["link", "hsa", "pathway"] then .ok (some ["path:hsa04110\thsa:1017"])
          else .error (.transportFailure "unexpected request"))
        "pathway" "gene" (some "hsa")).2 = [["link", "hsa", "pathway"]] ∧
    (kegg_relations
        (fun req =>
          if req = ["link", "pathway", "hsa"] then .ok (some ["hsa:1017\tpath:hsa04110"])
          else if req = ["link", "hsa", "pathway"] then .ok (some ["path:hsa04110\thsa:1017"])
          else .error (.transportFailure "unexpected request"))
        "gene" "pathway" (some "hsa")).1 =
      .error (.typeError "process() missing 1 required positional argument: type_") ∧
    (kegg_relations
        (fun req =>
          if req = ["link", "pathway", "hsa"] then .ok (some ["hsa:1017\tpath:hsa04110"])
          else if req = ["link", "hsa", "pathway"] then .ok (some ["path:hsa04110\thsa:1017"])
          else .error (.transportFailure "unexpected request"))
        "pathway" "gene" (some "hsa")).1 =
      .error (.typeError "process() missing 1 required positional argument: type_") :=
  ⟨rfl, rfl, rfl, rfl⟩

/-- Claim C9 (confirmed): `_Pathway.proc_key` extracts the first digit run of
the raw identifier and formats it with the `map` prefix, so the raw pathway
identifier `path:hsa04110` produces the cache key `map04110`. -/
theorem c9_pathway_key_normalization :
    pathwayProcKey ["path:hsa04110", "Cell cycle"] = .ok "map04110" ∧
    firstDigitRun "path:hsa04110" = some "04110" :=
  ⟨rfl, rfl⟩

/-- Claim C10 (confirmed): with `drugs` absent (`None`) or empty, lines
159-160 of `drug_to_drug` force `join` falsy and `asynchronous` truthy for
every combination of the caller's `join` and `asynchronous` arguments, so the
join flag has no effect and the asynchronous path is the one selected. -/
theorem c10_empty_drugs_force_flags :
    ∀ join asynchronous : Bool,
      drugToDrugFlags none join asynchronous = (false, true) ∧
      drugToDrugFlags (some []) join asynchronous = (false, true) := by
  intro join asynchronous
  constructor <;> simp [drugToDrugFlags, pyTruthyList]

end KeggApi
